import Mathlib

/-!
Shallow embedding of the whatsapp-microservice repository (Node.js), covering
the per-tenant message queue, content classification, phone-number validation,
the external send capability, and the HTTP controller validation pipeline.

Conventions of the embedding:
* JavaScript `undefined` is `Option.none`; a missing string field is `none`
  and the empty string is a present-but-falsy value (JS truthiness).
* A thrown JavaScript error is `Except.error` carrying a `JsError`.
* External collaborators (Redis-backed Bull store, the whatsapp-web.js client,
  the session service) are parameters of the functions that call them.
-/

namespace WaMicro

/-- Errors thrown by the JavaScript code.  `typeError` stands for the runtime
TypeError raised when a property of `undefined` is accessed; `jsError` is an
explicit `new Error(message)` thrown by the source. -/
inductive JsError where
  | typeError (msg : String)
  | jsError (msg : String)
deriving DecidableEq, Repr

/-- JS truthiness of an optional string value: `undefined` (`none`) and the
empty string are falsy, every other string is truthy. -/
def jsTruthyStr : Option String → Bool
  | none => false
  | some s => s != ""

/-- The JS idiom `v || d` on an optional string: yields `d` when `v` is
`undefined` or empty, otherwise the string itself. -/
def jsStrOr (v : Option String) (d : String) : String :=
  match v with
  | none => d
  | some s => if s == "" then d else s

/-- From src/utils/helpers.js `validatePhoneNumber`: strips every non-digit
character (`replace(/\D/g, "")`); returns `false` (here `none`) when fewer
than 10 digits remain, otherwise the cleaned digit string. -/
def validatePhoneNumber (phoneNumber : String) : Option String :=
  let cleanNumber := String.mk (phoneNumber.toList.filter Char.isDigit)
  if cleanNumber.length < 10 then none else some cleanNumber

/-- Raw message input as assembled by the controller:
`{ text: message, media, document }`, each field possibly `undefined`. -/
structure RawMessage where
  text : Option String
  media : Option String
  document : Option String
  documentFilename : Option String
deriving DecidableEq, Repr

/-- The `content` object built by `processMessageContent`; every field starts
absent and is assigned only in the corresponding branch. -/
structure MessageContentFields where
  text : Option String := none
  media : Option String := none
  caption : Option String := none
  document : Option String := none
  documentFilename : Option String := none
deriving DecidableEq, Repr

/-- Result object of src/utils/helpers.js `processMessageContent`. -/
structure ProcessedMessage where
  hasText : Bool
  hasMedia : Bool
  hasDocument : Bool
  content : MessageContentFields
deriving DecidableEq, Repr

/-- JS `String.prototype.trim`: strips leading and trailing whitespace.
Written over the character list so that it evaluates by reduction
(`String.trim` of core Lean is definitionally opaque to the kernel). -/
def jsTrim (s : String) : String :=
  String.mk (((s.toList.dropWhile Char.isWhitespace).reverse.dropWhile
    Char.isWhitespace).reverse)

/-- The caption expression `message.text.trim() || ""` of
`processMessageContent`: accessing `.trim` on `undefined` throws a TypeError;
on a present string it yields the trimmed text (the `|| ""` fallback collapses
to the same value, because an empty trimmed string is replaced by `""`). -/
def jsTrimCaption : Option String → Except JsError String
  | none => .error (.typeError "Cannot read properties of undefined")
  | some s => .ok (jsTrim s)

/-- From src/utils/helpers.js `processMessageContent`: classifies the raw
message.  `hasText` is JS-truthiness of `message.text && message.text.trim()`;
the text is copied only when no media and no document are present; the media
branch and the document branch each force `hasText` to false and assign
`caption = message.text.trim() || ""`, which throws when `text` is absent. -/
def processMessageContent (message : RawMessage) : Except JsError ProcessedMessage :=
  let hasText0 : Bool :=
    match message.text with
    | none => false
    | some s => s != "" && jsTrim s != ""
  let hasMedia := jsTruthyStr message.media
  let hasDocument := jsTruthyStr message.document
  let content0 : MessageContentFields := {}
  let content1 :=
    if hasText0 && !hasMedia && !hasDocument then
      { content0 with text := message.text.map jsTrim }
    else content0
  let step2 : Except JsError MessageContentFields :=
    if hasMedia then
      match jsTrimCaption message.text with
      | .error e => .error e
      | .ok caption => .ok { content1 with media := message.media, caption := some caption }
    else .ok content1
  match step2 with
  | .error e => .error e
  | .ok content2 =>
    let step3 : Except JsError MessageContentFields :=
      if hasDocument then
        match jsTrimCaption message.text with
        | .error e => .error e
        | .ok caption =>
          .ok { content2 with
                document := message.document,
                documentFilename := some (jsStrOr message.documentFilename "document"),
                caption := some caption }
      else .ok content2
    match step3 with
    | .error e => .error e
    | .ok content3 =>
      .ok { hasText := hasText0 && !hasMedia && !hasDocument,
            hasMedia := hasMedia,
            hasDocument := hasDocument,
            content := content3 }

/-- A queued message job, the data stored by `queue.add` in
src/services/queue.js `queueMessage`.  The job id `msg-uuidv4()` is modelled
as a fresh natural number drawn from a process-wide counter: `uuidv4` is a
fresh-identifier source, and freshness is what the code relies on. -/
structure Job where
  jobId : Nat
  recipient : String
  message : ProcessedMessage
  debugMode : Bool
deriving DecidableEq, Repr

/-- One Bull queue: the five job states tracked by the code
(`getWaitingCount`, `getActiveCount`, `getCompletedCount`, `getFailedCount`,
`getDelayedCount`).  `instanceId` tags the queue object created by
`new Bull(...)`, so that object identity of registry entries is observable. -/
structure BullQueue where
  instanceId : Nat
  waiting : List Job
  active : List Job
  completed : List Job
  failed : List Job
  delayed : List Job
deriving DecidableEq, Repr

/-- A freshly constructed Bull queue, before any job is added. -/
def emptyBullQueue (inst : Nat) : BullQueue :=
  { instanceId := inst, waiting := [], active := [], completed := [],
    failed := [], delayed := [] }

/-- `Map.get` of the module-level `queues` map: first entry with the key. -/
def alGet (l : List (String × BullQueue)) (t : String) : Option BullQueue :=
  match l with
  | [] => none
  | p :: rest => if p.1 = t then some p.2 else alGet rest t

/-- `Map.set` of the module-level `queues` map: replaces the value at an
existing key in place, appends a new key in insertion order. -/
def alSet (l : List (String × BullQueue)) (t : String) (q : BullQueue) : List (String × BullQueue) :=
  match l with
  | [] => [(t, q)]
  | p :: rest => if p.1 = t then (t, q) :: rest else p :: alSet rest t q

/-- Module-level mutable state of src/services/queue.js: the `queues` map,
plus the counters backing fresh `Bull` instances and fresh job ids. -/
structure QueueState where
  queues : List (String × BullQueue)
  nextInstanceId : Nat
  nextJobId : Nat
deriving DecidableEq, Repr

/-- State of the module at process start: no queue registered yet. -/
def emptyQueueState : QueueState :=
  { queues := [], nextInstanceId := 0, nextJobId := 0 }

/-- `queues.get(unitId)` on the registry state. -/
def lookupQueue (st : QueueState) (unitId : String) : Option BullQueue :=
  alGet st.queues unitId

/-- `queues.set(unitId, queue)` on the registry state. -/
def setQueue (st : QueueState) (unitId : String) (q : BullQueue) : QueueState :=
  { st with queues := alSet st.queues unitId q }

/-- From src/services/queue.js `getMessageQueue`: returns the stored queue
when the unit id is present; otherwise creates a new Bull queue, registers
it under the unit id, and returns it. -/
def getMessageQueue (st : QueueState) (unitId : String) : BullQueue × QueueState :=
  match lookupQueue st unitId with
  | some q => (q, st)
  | none =>
    let q := emptyBullQueue st.nextInstanceId
    let st1 := setQueue st unitId q
    (q, { st1 with nextInstanceId := st.nextInstanceId + 1 })

/-- One element of the `jobs` array returned by `queueMessage`. -/
structure JobRef where
  id : Nat
  recipient : String
deriving DecidableEq, Repr

/-- Return value of `queueMessage`: `{ jobCount, jobs }`. -/
structure EnqueueResult where
  jobCount : Nat
  jobs : List JobRef
deriving DecidableEq, Repr

/-- The per-recipient job construction of `queueMessage`: one job per
recipient, in recipient order, each with the next fresh job id. -/
def mkJobs (pm : ProcessedMessage) (debugMode : Bool) : Nat → List String → List Job
  | _, [] => []
  | n, r :: rest =>
    { jobId := n, recipient := r, message := pm, debugMode := debugMode }
      :: mkJobs pm debugMode (n + 1) rest

/-- From src/services/queue.js `queueMessage`: resolves (or creates) the
tenant queue first, classifies the content, then adds one job per recipient
and returns `{ jobCount, jobs }`.  When `processMessageContent` throws, the
error propagates but the queue created by `getMessageQueue` stays
registered, so the state is returned alongside the `Except`. -/
def queueMessage (st : QueueState) (unitId : String) (recipients : List String)
    (message : RawMessage) (debugMode : Bool) :
    Except JsError EnqueueResult × QueueState :=
  let q := (getMessageQueue st unitId).1
  let st1 := (getMessageQueue st unitId).2
  match processMessageContent message with
  | .error e => (.error e, st1)
  | .ok processedMessage =>
    let newJobs := mkJobs processedMessage debugMode st1.nextJobId recipients
    let q2 := { q with waiting := q.waiting ++ newJobs }
    let st2 := setQueue st1 unitId q2
    let st3 := { st2 with nextJobId := st1.nextJobId + recipients.length }
    (.ok { jobCount := newJobs.length,
           jobs := newJobs.map (fun j => { id := j.jobId, recipient := j.recipient }) },
     st3)

/-- Statistics object returned by src/services/queue.js `getQueueStats`. -/
structure QueueStats where
  unitId : String
  waiting : Nat
  active : Nat
  completed : Nat
  failed : Nat
  delayed : Nat
  total : Nat
deriving DecidableEq, Repr

/-- From src/services/queue.js `getQueueStats`: resolves the queue through
`getMessageQueue` (creating it when absent), then reports the five state
counts and `total = waiting + active + delayed`. -/
def getQueueStats (st : QueueState) (unitId : String) : QueueStats × QueueState :=
  let q := (getMessageQueue st unitId).1
  let st1 := (getMessageQueue st unitId).2
  ({ unitId := unitId,
     waiting := q.waiting.length,
     active := q.active.length,
     completed := q.completed.length,
     failed := q.failed.length,
     delayed := q.delayed.length,
     total := q.waiting.length + q.active.length + q.delayed.length }, st1)

/-- Return value of src/services/queue.js `clearQueue`. -/
structure ClearResult where
  success : Bool
  removedCount : Nat
deriving DecidableEq, Repr

/-- From src/services/queue.js `clearQueue`: resolves the queue through
`getMessageQueue` (creating it when absent), removes every waiting and every
delayed job, and reports how many removals were issued. -/
def clearQueue (st : QueueState) (unitId : String) : ClearResult × QueueState :=
  let q := (getMessageQueue st unitId).1
  let st1 := (getMessageQueue st unitId).2
  let removedCount := q.waiting.length + q.delayed.length
  let q2 := { q with waiting := [], delayed := [] }
  ({ success := true, removedCount := removedCount }, setQueue st1 unitId q2)

/-- One call to `client.sendMessage` in src/services/whatsapp.js, identified
by its arguments: a plain text send, a media send
(`sendMediaAsDocument: false`), or a document send
(`sendMediaAsDocument: true`), each with the caption passed. -/
inductive WaOp where
  | sendText (chatId : String) (text : Option String)
  | sendMedia (chatId : String) (caption : String)
  | sendDoc (chatId : String) (caption : String)
deriving DecidableEq, Repr

/-- Result object of src/services/whatsapp.js `sendMessage` (and of the
debug-mode branch of the queue processor). -/
structure WaSendResult where
  success : Bool
  error : Option String := none
  recipient : Option String := none
  messageId : Option String := none
  debug : Bool := false
deriving DecidableEq, Repr

/-- External collaborators of `sendMessage`, supplied as oracles: session
readiness, client presence, the `isRegisteredUser` check, the outcome of
loading a media or document reference (URL fetch or file read), and the id
carried by the message object each send resolves to (`none` when the client
returns a message without an id). -/
structure ClientEnv where
  sessionReady : Bool
  clientExists : Bool
  isRegisteredUser : String → Bool
  loadMedia : String → Except JsError Unit
  loadDocument : String → Except JsError Unit
  sendResult : WaOp → Option String

/-- The media-loading block of `sendMessage`: an absent `content.media`
reaches `path.resolve(mediaContent.path || mediaContent)` and throws a
TypeError; a present reference is loaded by the environment (URL or file,
either of which may throw). -/
def loadMediaContent (env : ClientEnv) : Option String → Except JsError Unit
  | none => .error (.typeError "Cannot read properties of undefined")
  | some m => env.loadMedia m

/-- The document-loading block of `sendMessage`: an absent
`content.document` reaches `docContent.path` and throws a TypeError; a
present reference is loaded by the environment. -/
def loadDocumentContent (env : ClientEnv) : Option String → Except JsError Unit
  | none => .error (.typeError "Cannot read properties of undefined")
  | some d => env.loadDocument d

/-- The trailing expression `result?.id?.id || null`: `null` when no send
was performed, when the message has no id, or when the id is the empty
string (JS falsiness); otherwise the id of the last send performed. -/
def jsIdOrNull : Option (Option String) → Option String
  | none => none
  | some none => none
  | some (some s) => if s == "" then none else some s

/-- From src/services/whatsapp.js `sendMessage`: checks session readiness and
client presence, validates the recipient, forms `chatId`, returns a
non-thrown `not_registered` result when `isRegisteredUser` is false, then
performs up to three sends (text, media, document, in source order), each
overwriting `result`; errors while loading media or documents propagate as
thrown errors.  The second component is the trace of sends performed. -/
def waSendMessage (env : ClientEnv) (unitId recipient : String)
    (messageContent : ProcessedMessage) :
    Except JsError WaSendResult × List WaOp :=
  if !env.sessionReady then
    (.error (.jsError ("WhatsApp session " ++ unitId ++ " is not ready")), [])
  else if !env.clientExists then
    (.error (.jsError ("No WhatsApp client found for unitId: " ++ unitId)), [])
  else
    match validatePhoneNumber recipient with
    | none => (.error (.jsError ("Invalid phone number: " ++ recipient)), [])
    | some formattedNumber =>
      let chatId := formattedNumber ++ "@c.us"
      if !env.isRegisteredUser chatId then
        (.ok { success := false, error := some "not_registered" }, [])
      else
        let afterText : Option (Option String) × List WaOp :=
          if messageContent.hasText then
            let op := WaOp.sendText chatId messageContent.content.text
            (some (env.sendResult op), [op])
          else (none, [])
        let mediaStep : Except JsError (Option (Option String) × List WaOp) :=
          if messageContent.hasMedia then
            match loadMediaContent env messageContent.content.media with
            | .error e => .error e
            | .ok _ =>
              let op := WaOp.sendMedia chatId (jsStrOr messageContent.content.caption "")
              .ok (some (env.sendResult op), afterText.2 ++ [op])
          else .ok afterText
        match mediaStep with
        | .error e => (.error e, afterText.2)
        | .ok afterMedia =>
          let docStep : Except JsError (Option (Option String) × List WaOp) :=
            if messageContent.hasDocument then
              match loadDocumentContent env messageContent.content.document with
              | .error e => .error e
              | .ok _ =>
                let op := WaOp.sendDoc chatId (jsStrOr messageContent.content.caption "")
                .ok (some (env.sendResult op), afterMedia.2 ++ [op])
            else .ok afterMedia
          match docStep with
          | .error e => (.error e, afterMedia.2)
          | .ok afterDoc =>
            (.ok { success := true,
                   recipient := some formattedNumber,
                   messageId := jsIdOrNull afterDoc.1 }, afterDoc.2)

/-- Outcome of one invocation of `whatsappService.sendMessage` as seen by the
queue processor: either the promise resolves to a result object (successful
or not, e.g. the non-thrown `not_registered` result), or it rejects. -/
inductive SendOutcome where
  | result (r : WaSendResult)
  | thrown (e : JsError)
deriving DecidableEq, Repr

/-- Terminal state of a Bull job together with the number of attempts made:
a job completes when the processor returns, and fails permanently when the
processor throws on its last allowed attempt. -/
inductive JobTerminal where
  | completedJob (r : WaSendResult) (attemptsMade : Nat)
  | failedJob (e : JsError) (attemptsMade : Nat)
deriving DecidableEq, Repr

/-- Whether a terminal outcome is a permanent Bull failure. -/
def isFailedTerminal : Option JobTerminal → Bool
  | some (.failedJob _ _) => true
  | _ => false

/-- The `queue.process` handler of src/services/queue.js combined with the
Bull retry rule, run to a terminal state.  `debugMode` returns a synthetic
success without calling the send capability.  Otherwise the next element of
`outcomes` is the result of `whatsappService.sendMessage` for that attempt: a
resolved result (successful or not) is returned by the handler, so Bull marks
the job completed; a thrown error is rethrown (`throw error` — let Bull
handle retries), and Bull re-runs the job while fewer than `maxAttempts`
attempts were made, else marks it failed.  `none` means the supplied outcome
list was too short to reach a terminal state. -/
def runJobAttempts (debugMode : Bool) (recipient : String) (maxAttempts : Nat) :
    Nat → List SendOutcome → Option JobTerminal
  | made, outs =>
    if debugMode then
      some (.completedJob { success := true, debug := true, recipient := some recipient } (made + 1))
    else
      match outs with
      | [] => none
      | o :: rest =>
        match o with
        | .result r => some (.completedJob r (made + 1))
        | .thrown e =>
          if made + 1 < maxAttempts then
            runJobAttempts debugMode recipient maxAttempts (made + 1) rest
          else
            some (.failedJob e (made + 1))

/-- The `debug_mode` field of a request body: absent, a boolean, or a
string (form-data sends strings). -/
inductive JsDebug where
  | undef
  | jbool (b : Bool)
  | jstr (s : String)
deriving DecidableEq, Repr

/-- From src/config/index.js line 7: `debugMode: process.env.DEBUG_MODE ===
"true"` — the process-wide default, true exactly when the environment
variable is the literal string true. -/
def configDebugMode (envVal : Option String) : Bool :=
  envVal == some "true"

/-- The coercion at src/controllers/messageController.js lines 56-59: a
string `debug_mode` becomes the boolean `lowercase value === "true"`; other
values pass through. -/
def coerceDebugMode : JsDebug → JsDebug
  | .jstr s => .jbool (s.toLower == "true")
  | v => v

/-- The expression at src/controllers/messageController.js line 104:
`(debug_mode === true) || (debug_mode === undefined && config.app.debugMode
=== true)`, applied to the already-coerced value. -/
def useDebugMode (debugMode : JsDebug) (cfgDebugMode : Bool) : Bool :=
  (debugMode == JsDebug.jbool true) || (debugMode == JsDebug.undef && cfgDebugMode)

/-- The full resolution the controller performs on the raw `debug_mode`
field: string coercion followed by the `useDebugMode` expression. -/
def resolveDebugMode (debugMode : JsDebug) (cfgDebugMode : Bool) : Bool :=
  useDebugMode (coerceDebugMode debugMode) cfgDebugMode

/-- An enqueue request body as seen by `sendMessage` in
src/controllers/messageController.js, after the upstream normalizations the
claims do not exercise (recipients already an array, no multipart file
upload). -/
structure SendRequest where
  unit_id : Option String
  recipients : Option (List String)
  message : Option String
  media : Option String
  document : Option String
  debug_mode : JsDebug
deriving DecidableEq, Repr

/-- HTTP response produced by the controller: a 400 validation rejection, a
202 acceptance carrying the enqueue result, or an error forwarded to the
error middleware. -/
inductive ControllerResponse where
  | badRequest (msg : String)
  | accepted (result : EnqueueResult)
  | serverError (e : JsError)
deriving DecidableEq, Repr

/-- From src/controllers/messageController.js `sendMessage`: coerces
`debug_mode`, validates `unit_id` (falsy rejected), recipients (absent or
empty array rejected), message content with the source condition
`!message || (!message && !media && !document)`, session readiness, and phone
numbers (`filter` of recipients failing `validatePhoneNumber`, rejected when
any); only then resolves debug mode and calls `queueMessage`. -/
def controllerSendMessage (sessionReady : String → Bool) (cfgDebugMode : Bool)
    (req : SendRequest) (st : QueueState) : ControllerResponse × QueueState :=
  let debugMode := coerceDebugMode req.debug_mode
  match req.unit_id with
  | none => (.badRequest "unit_id is required", st)
  | some u =>
    if u = "" then (.badRequest "unit_id is required", st)
    else
      match req.recipients with
      | none => (.badRequest "At least one recipient is required", st)
      | some recipientList =>
        if recipientList.length = 0 then
          (.badRequest "At least one recipient is required", st)
        else if !jsTruthyStr req.message
            || (!jsTruthyStr req.message && !jsTruthyStr req.media
                && !jsTruthyStr req.document) then
          (.badRequest "Message content is required (text, media, or document)", st)
        else if !sessionReady u then
          (.badRequest ("WhatsApp session for unit_id " ++ u ++ " is not ready"), st)
        else
          let invalidNumbers := recipientList.filter
            (fun num => (validatePhoneNumber num).isNone)
          if invalidNumbers.length > 0 then
            (.badRequest "Invalid phone number(s) found", st)
          else
            let usedDebugMode := useDebugMode debugMode cfgDebugMode
            let call := queueMessage st u recipientList
              { text := req.message, media := req.media,
                document := req.document, documentFilename := none }
              usedDebugMode
            match call.1 with
            | .ok result => (.accepted result, call.2)
            | .error e => (.serverError e, call.2)

/-! Helper lemmas about the registry map and job construction. -/

theorem alGet_alSet_self (l : List (String × BullQueue)) (t : String) (q : BullQueue) :
    alGet (alSet l t q) t = some q := by
  induction l with
  | nil => simp [alGet, alSet]
  | cons p rest ih =>
    by_cases h : p.1 = t
    · simp [alGet, alSet, h]
    · simp [alGet, alSet, h, ih]

theorem alGet_alSet_ne (l : List (String × BullQueue)) (t t2 : String) (q : BullQueue)
    (h : t2 ≠ t) : alGet (alSet l t q) t2 = alGet l t2 := by
  induction l with
  | nil => simp [alGet, alSet, Ne.symm h]
  | cons p rest ih =>
    by_cases hp : p.1 = t
    · simp [alGet, alSet, hp, Ne.symm h]
    · simp only [alSet, hp, if_false]
      by_cases hp2 : p.1 = t2
      · simp [alGet, hp2]
      · simp [alGet, hp2, ih]

theorem alSet_of_alGet_none (l : List (String × BullQueue)) (t : String) (q : BullQueue)
    (h : alGet l t = none) : alSet l t q = l ++ [(t, q)] := by
  induction l with
  | nil => simp [alSet]
  | cons p rest ih =>
    by_cases hp : p.1 = t
    · simp [alGet, hp] at h
    · simp only [alGet, hp, if_false] at h
      simp [alSet, hp, ih h]

theorem alGet_isSome_alSet (l : List (String × BullQueue)) (t t2 : String) (q : BullQueue)
    (h : (alGet l t2).isSome = true) : (alGet (alSet l t q) t2).isSome = true := by
  by_cases he : t2 = t
  · subst he
    simp [alGet_alSet_self]
  · rw [alGet_alSet_ne l t t2 q he]
    exact h

theorem getMessageQueue_found (st : QueueState) (t : String) (q : BullQueue)
    (h : lookupQueue st t = some q) : getMessageQueue st t = (q, st) := by
  simp [getMessageQueue, h]

theorem getMessageQueue_new (st : QueueState) (t : String)
    (h : lookupQueue st t = none) :
    getMessageQueue st t =
      (emptyBullQueue st.nextInstanceId,
       { queues := st.queues ++ [(t, emptyBullQueue st.nextInstanceId)],
         nextInstanceId := st.nextInstanceId + 1,
         nextJobId := st.nextJobId }) := by
  simp [getMessageQueue, h, setQueue,
    alSet_of_alGet_none st.queues t (emptyBullQueue st.nextInstanceId) h]

theorem lookupQueue_getMessageQueue_self (st : QueueState) (t : String) :
    lookupQueue (getMessageQueue st t).2 t = some (getMessageQueue st t).1 := by
  cases h : lookupQueue st t with
  | some q => rw [getMessageQueue_found st t q h]; exact h
  | none =>
    rw [getMessageQueue_new st t h]
    show alGet (st.queues ++ [(t, emptyBullQueue st.nextInstanceId)]) t = _
    have := alSet_of_alGet_none st.queues t (emptyBullQueue st.nextInstanceId) h
    rw [← this, alGet_alSet_self]

theorem getMessageQueue_nextJobId (st : QueueState) (t : String) :
    ((getMessageQueue st t).2).nextJobId = st.nextJobId := by
  cases h : lookupQueue st t with
  | some q => rw [getMessageQueue_found st t q h]
  | none => rw [getMessageQueue_new st t h]

theorem getMessageQueue_isSome (st : QueueState) (t t2 : String)
    (h : (lookupQueue st t2).isSome = true) :
    (lookupQueue (getMessageQueue st t).2 t2).isSome = true := by
  cases hl : lookupQueue st t with
  | some q => rw [getMessageQueue_found st t q hl]; exact h
  | none =>
    rw [getMessageQueue_new st t hl]
    show (alGet (st.queues ++ [(t, emptyBullQueue st.nextInstanceId)]) t2).isSome = true
    rw [← alSet_of_alGet_none st.queues t (emptyBullQueue st.nextInstanceId) hl]
    exact alGet_isSome_alSet st.queues t t2 (emptyBullQueue st.nextInstanceId) h

theorem mkJobs_length (pm : ProcessedMessage) (d : Bool) (n : Nat) (rs : List String) :
    (mkJobs pm d n rs).length = rs.length := by
  induction rs generalizing n with
  | nil => simp [mkJobs]
  | cons r rest ih => simp [mkJobs, ih]

theorem mkJobs_map_recipient (pm : ProcessedMessage) (d : Bool) (n : Nat) (rs : List String) :
    (mkJobs pm d n rs).map Job.recipient = rs := by
  induction rs generalizing n with
  | nil => simp [mkJobs]
  | cons r rest ih => simp [mkJobs, ih]

theorem mkJobs_map_jobId (pm : ProcessedMessage) (d : Bool) (n : Nat) (rs : List String) :
    (mkJobs pm d n rs).map Job.jobId = List.range' n rs.length := by
  induction rs generalizing n with
  | nil => simp [mkJobs]
  | cons r rest ih => simp [mkJobs, ih, List.range']

theorem mkJobs_debugMode (pm : ProcessedMessage) (d : Bool) (n : Nat) (rs : List String) :
    ∀ j ∈ mkJobs pm d n rs, j.debugMode = d := by
  induction rs generalizing n with
  | nil => intro j hj; simp [mkJobs] at hj
  | cons r rest ih =>
    intro j hj
    simp only [mkJobs, List.mem_cons] at hj
    cases hj with
    | inl h => rw [h]
    | inr h => exact ih (n + 1) j h

theorem alSet_alSet (l : List (String × BullQueue)) (t : String) (q q2 : BullQueue) :
    alSet (alSet l t q) t q2 = alSet l t q2 := by
  induction l with
  | nil => simp [alSet]
  | cons p rest ih =>
    by_cases hp : p.1 = t
    · simp [alSet, hp]
    · simp [alSet, hp, ih]

theorem alSet_append_last (l : List (String × BullQueue)) (t : String) (q q2 : BullQueue)
    (h : alGet l t = none) : alSet (l ++ [(t, q)]) t q2 = l ++ [(t, q2)] := by
  rw [← alSet_of_alGet_none l t q h, alSet_alSet, alSet_of_alGet_none l t q2 h]

/-! Claim theorems. -/

/-- Claim C1 counterexample: a job whose send reports that the recipient is
not registered does not reach status failed — processing it with a
not-registered outcome (maxAttempts 2) terminates as completed after one
attempt, because the handler returns the unsuccessful result object instead
of throwing. -/
theorem notRegistered_claim_counterexample :
    runJobAttempts false "15551234567" 2 0
        [SendOutcome.result { success := false, error := some "not_registered" }]
      = some (JobTerminal.completedJob
          { success := false, error := some "not_registered" } 1)
    ∧ isFailedTerminal (runJobAttempts false "15551234567" 2 0
        [SendOutcome.result { success := false, error := some "not_registered" }]) = false :=
  ⟨rfl, rfl⟩

/-- Claim C1 (amended): when the external capability reports the recipient
as not registered, `sendMessage` resolves (does not throw) with
`success false, error not_registered`; the queue handler therefore returns
that result, and Bull terminates the job after exactly 1 attempt with no
retry — but the terminal status is completed (carrying the unsuccessful
result), not failed, for every attempt limit and any further outcomes. -/
theorem notRegistered_one_attempt_completed (env : ClientEnv)
    (unitId recipient fn : String) (mc : ProcessedMessage)
    (maxAttempts : Nat) (rest : List SendOutcome)
    (h1 : env.sessionReady = true) (h2 : env.clientExists = true)
    (h3 : validatePhoneNumber recipient = some fn)
    (h4 : env.isRegisteredUser (fn ++ "@c.us") = false) :
    (waSendMessage env unitId recipient mc).1
      = Except.ok { success := false, error := some "not_registered" }
    ∧ runJobAttempts false recipient maxAttempts 0
        (SendOutcome.result { success := false, error := some "not_registered" } :: rest)
      = some (JobTerminal.completedJob
          { success := false, error := some "not_registered" } 1)
    ∧ isFailedTerminal (runJobAttempts false recipient maxAttempts 0
        (SendOutcome.result { success := false, error := some "not_registered" } :: rest))
      = false := by
  refine ⟨?_, rfl, rfl⟩
  simp [waSendMessage, h1, h2, h3, h4]

/-- Witness for the amended claim C1 at a concrete environment. -/
theorem notRegistered_one_attempt_completed_witness :
    (waSendMessage
        { sessionReady := true, clientExists := true,
          isRegisteredUser := fun _ => false,
          loadMedia := fun _ => Except.ok (),
          loadDocument := fun _ => Except.ok (),
          sendResult := fun _ => none }
        "u1" "15551234567"
        { hasText := true, hasMedia := false, hasDocument := false, content := {} }).1
      = Except.ok { success := false, error := some "not_registered" }
    ∧ runJobAttempts false "15551234567" 2 0
        [SendOutcome.result { success := false, error := some "not_registered" }]
      = some (JobTerminal.completedJob
          { success := false, error := some "not_registered" } 1)
    ∧ isFailedTerminal (runJobAttempts false "15551234567" 2 0
        [SendOutcome.result { success := false, error := some "not_registered" }]) = false :=
  notRegistered_one_attempt_completed
    { sessionReady := true, clientExists := true,
      isRegisteredUser := fun _ => false,
      loadMedia := fun _ => Except.ok (),
      loadDocument := fun _ => Except.ok (),
      sendResult := fun _ => none }
    "u1" "15551234567" "15551234567"
    { hasText := true, hasMedia := false, hasDocument := false, content := {} }
    2 [] rfl rfl (by decide) rfl

/-- Claim C2 counterexample: querying stats for the tenant u1 on a registry
that never created its queue does not fail with NotFound — it succeeds with
all-zero counts, and as a side effect registers a fresh queue under u1;
purging likewise succeeds with removedCount 0. -/
theorem stats_unknown_tenant_counterexample :
    (getQueueStats emptyQueueState "u1").1
      = { unitId := "u1", waiting := 0, active := 0, completed := 0,
          failed := 0, delayed := 0, total := 0 }
    ∧ (getQueueStats emptyQueueState "u1").2.queues = [("u1", emptyBullQueue 0)]
    ∧ (clearQueue emptyQueueState "u1").1 = { success := true, removedCount := 0 } :=
  ⟨rfl, rfl, rfl⟩

/-- Claim C2 (amended): for a tenant id whose queue was never created, the
single-tenant stats query and the purge do not fail — each implicitly
creates the tenant queue through `getMessageQueue`, appends it to the
registry (a side effect on the registry), and succeeds with zero counts
resp. removedCount 0. -/
theorem stats_purge_unknown_tenant_creates (st : QueueState) (t : String)
    (h : lookupQueue st t = none) :
    (getQueueStats st t).1
      = { unitId := t, waiting := 0, active := 0, completed := 0,
          failed := 0, delayed := 0, total := 0 }
    ∧ (getQueueStats st t).2.queues
      = st.queues ++ [(t, emptyBullQueue st.nextInstanceId)]
    ∧ (clearQueue st t).1 = { success := true, removedCount := 0 }
    ∧ (clearQueue st t).2.queues
      = st.queues ++ [(t, emptyBullQueue st.nextInstanceId)] := by
  have hg := getMessageQueue_new st t h
  have hset := alSet_of_alGet_none st.queues t (emptyBullQueue st.nextInstanceId) h
  refine ⟨?_, ?_, ?_, ?_⟩
  · simp [getQueueStats, hg, emptyBullQueue]
  · simp [getQueueStats, hg]
  · simp [clearQueue, hg, emptyBullQueue]
  · simp [clearQueue, hg, setQueue]
    exact alSet_append_last st.queues t _ _ h

/-- Witness for the amended claim C2 on the empty registry. -/
theorem stats_purge_unknown_tenant_creates_witness :
    (getQueueStats emptyQueueState "u1").1
      = { unitId := "u1", waiting := 0, active := 0, completed := 0,
          failed := 0, delayed := 0, total := 0 }
    ∧ (getQueueStats emptyQueueState "u1").2.queues
      = emptyQueueState.queues ++ [("u1", emptyBullQueue emptyQueueState.nextInstanceId)]
    ∧ (clearQueue emptyQueueState "u1").1 = { success := true, removedCount := 0 }
    ∧ (clearQueue emptyQueueState "u1").2.queues
      = emptyQueueState.queues ++ [("u1", emptyBullQueue emptyQueueState.nextInstanceId)] :=
  stats_purge_unknown_tenant_creates emptyQueueState "u1" rfl

/-- The enqueue request of claim C3 that exposes the bug: media supplied,
text absent. -/
def c3FailingRequest : SendRequest :=
  { unit_id := some "u1", recipients := some ["15551234567"], message := none,
    media := some "http://x/y.png", document := none, debug_mode := JsDebug.undef }

/-- Claim C3: the controller rejects a request that supplies media but no
text, answering with the content-required validation error and creating no
job, although its own error message documents that media alone should
suffice — the source condition `!message || (!message && !media &&
!document)` collapses to `!message`. -/
theorem mediaOnly_request_rejected :
    (controllerSendMessage (fun _ => true) false c3FailingRequest emptyQueueState).1
      = ControllerResponse.badRequest "Message content is required (text, media, or document)"
    ∧ (controllerSendMessage (fun _ => true) false c3FailingRequest emptyQueueState).2
      = emptyQueueState :=
  ⟨rfl, rfl⟩

/-- Claim C4 counterexample: classifying a message that provides a media
reference and no text does not produce an empty caption — it throws a
TypeError, because `message.text.trim()` is evaluated on `undefined`. -/
theorem media_without_text_throws :
    processMessageContent
        { text := none, media := some "http://x/y.png",
          document := none, documentFilename := none }
      = Except.error (JsError.typeError "Cannot read properties of undefined") :=
  rfl

/-- Claim C4 (amended): when a media or document reference is provided and a
text value is present, classification yields hasText false and caption equal
to the trimmed text (the empty string when the text trims to empty); when
the text field is absent it throws a TypeError instead of defaulting the
caption; when only non-empty trimmed text is provided, the content carries
the trimmed text and no caption. -/
theorem content_classification_caption (m : RawMessage) (s : String) :
    (m.text = some s → (jsTruthyStr m.media || jsTruthyStr m.document) = true →
      ∃ r, processMessageContent m = Except.ok r ∧ r.hasText = false
        ∧ r.content.caption = some (jsTrim s))
    ∧ (m.text = none → (jsTruthyStr m.media || jsTruthyStr m.document) = true →
      processMessageContent m
        = Except.error (JsError.typeError "Cannot read properties of undefined"))
    ∧ (m.text = some s → jsTrim s ≠ "" → jsTruthyStr m.media = false →
        jsTruthyStr m.document = false →
      ∃ r, processMessageContent m = Except.ok r ∧ r.hasText = true
        ∧ r.content.text = some (jsTrim s) ∧ r.content.caption = none) := by
  refine ⟨?_, ?_, ?_⟩
  · intro ht hmd
    cases hm : jsTruthyStr m.media <;> cases hd : jsTruthyStr m.document
    · rw [hm, hd] at hmd; simp at hmd
    · refine ⟨{ hasText := false, hasMedia := false, hasDocument := true,
                content := { text := none, media := none, caption := some (jsTrim s),
                             document := m.document,
                             documentFilename := some (jsStrOr m.documentFilename "document") } },
              ?_, rfl, rfl⟩
      simp [processMessageContent, ht, hm, hd, jsTrimCaption]
    · refine ⟨{ hasText := false, hasMedia := true, hasDocument := false,
                content := { text := none, media := m.media, caption := some (jsTrim s),
                             document := none, documentFilename := none } },
              ?_, rfl, rfl⟩
      simp [processMessageContent, ht, hm, hd, jsTrimCaption]
    · refine ⟨{ hasText := false, hasMedia := true, hasDocument := true,
                content := { text := none, media := m.media, caption := some (jsTrim s),
                             document := m.document,
                             documentFilename := some (jsStrOr m.documentFilename "document") } },
              ?_, rfl, rfl⟩
      simp [processMessageContent, ht, hm, hd, jsTrimCaption]
  · intro ht hmd
    cases hm : jsTruthyStr m.media <;> cases hd : jsTruthyStr m.document
    · rw [hm, hd] at hmd; simp at hmd
    · simp [processMessageContent, ht, hm, hd, jsTrimCaption]
    · simp [processMessageContent, ht, hm, hd, jsTrimCaption]
    · simp [processMessageContent, ht, hm, hd, jsTrimCaption]
  · intro ht hs hm hd
    have hs0 : s ≠ "" := fun he => hs (by rw [he]; decide)
    refine ⟨{ hasText := true, hasMedia := false, hasDocument := false,
              content := { text := some (jsTrim s), media := none, caption := none,
                           document := none, documentFilename := none } },
            ?_, rfl, rfl, rfl⟩
    simp [processMessageContent, ht, hm, hd, bne_iff_ne.mpr hs0, bne_iff_ne.mpr hs]

/-- Claim C10: an omitted debug flag resolves to the process-wide
DEBUG_MODE configuration default; an explicit boolean false yields false
even when the default is true; string values are coerced to booleans (by
lowercase comparison with the literal true) before resolution; and every
job created by an enqueue carries the resolved flag it was given. -/
theorem debugMode_resolution (envVal : Option String) (cfg : Bool) (s : String)
    (pm : ProcessedMessage) (d : Bool) (n : Nat) (rs : List String) :
    resolveDebugMode JsDebug.undef (configDebugMode envVal) = configDebugMode envVal
    ∧ resolveDebugMode (JsDebug.jbool false) true = false
    ∧ coerceDebugMode (JsDebug.jstr s) = JsDebug.jbool (s.toLower == "true")
    ∧ resolveDebugMode (JsDebug.jstr s) cfg
      = resolveDebugMode (JsDebug.jbool (s.toLower == "true")) cfg
    ∧ ((mkJobs pm d n rs).all fun j => j.debugMode == d) = true := by
  refine ⟨?_, rfl, rfl, rfl, ?_⟩
  · simp [resolveDebugMode, useDebugMode, coerceDebugMode]
  · exact List.all_eq_true.mpr fun j hj => by
      simp [mkJobs_debugMode pm d n rs j hj]

/-- Witness for claim C10 at concrete values. -/
theorem debugMode_resolution_witness :
    resolveDebugMode JsDebug.undef (configDebugMode (some "true"))
      = configDebugMode (some "true")
    ∧ resolveDebugMode (JsDebug.jbool false) true = false
    ∧ coerceDebugMode (JsDebug.jstr "false") = JsDebug.jbool ("false".toLower == "true")
    ∧ resolveDebugMode (JsDebug.jstr "false") true
      = resolveDebugMode (JsDebug.jbool ("false".toLower == "true")) true
    ∧ ((mkJobs
        { hasText := true, hasMedia := false, hasDocument := false, content := {} }
        false 0 ["15551234567"]).all fun j => j.debugMode == false) = true :=
  debugMode_resolution (some "true") true "false"
    { hasText := true, hasMedia := false, hasDocument := false, content := {} }
    false 0 ["15551234567"]

/-- Witness for the amended claim C4, exercising all three parts at
concrete inputs: media with caption text, media with absent text, and plain
text alone. -/
theorem content_classification_caption_witness :
    (∃ r, processMessageContent
        { text := some "caption text", media := some "http://x/y.png",
          document := none, documentFilename := none }
      = Except.ok r ∧ r.hasText = false
      ∧ r.content.caption = some (jsTrim "caption text"))
    ∧ processMessageContent
        { text := none, media := some "http://x/y.png",
          document := none, documentFilename := none }
      = Except.error (JsError.typeError "Cannot read properties of undefined")
    ∧ (∃ r, processMessageContent
        { text := some "hi", media := none,
          document := none, documentFilename := none }
      = Except.ok r ∧ r.hasText = true
      ∧ r.content.text = some (jsTrim "hi") ∧ r.content.caption = none) :=
  ⟨(content_classification_caption
      { text := some "caption text", media := some "http://x/y.png",
        document := none, documentFilename := none } "caption text").1 rfl rfl,
   (content_classification_caption
      { text := none, media := some "http://x/y.png",
        document := none, documentFilename := none } "").2.1 rfl rfl,
   (content_classification_caption
      { text := some "hi", media := none,
        document := none, documentFilename := none } "hi").2.2 rfl
     (by decide) rfl rfl⟩

/-- Claim C5: an enqueue request containing any recipient whose digit
normalization yields fewer than 10 digits is answered with a 400 validation
rejection, and the queue state is untouched — no job is created for any
recipient (all-or-nothing). -/
theorem invalid_recipient_rejects_whole_request (sessionReady : String → Bool)
    (cfg : Bool) (req : SendRequest) (st : QueueState) (l : List String) (r : String)
    (hrec : req.recipients = some l) (hmem : r ∈ l)
    (hbad : validatePhoneNumber r = none) :
    (∃ msg, (controllerSendMessage sessionReady cfg req st).1
        = ControllerResponse.badRequest msg)
    ∧ (controllerSendMessage sessionReady cfg req st).2 = st := by
  have hmemf : r ∈ l.filter (fun num => (validatePhoneNumber num).isNone) :=
    List.mem_filter.mpr ⟨hmem, by simp [hbad]⟩
  have hlen : 0 < (l.filter (fun num => (validatePhoneNumber num).isNone)).length :=
    List.length_pos.mpr (List.ne_nil_of_mem hmemf)
  simp only [controllerSendMessage, hrec]
  repeat' split
  all_goals first
    | exact ⟨⟨_, rfl⟩, rfl⟩
    | (exfalso; omega)

/-- The request of the claim C5 scenario: one good recipient, one that
normalizes to fewer than 10 digits. -/
def c5Request : SendRequest :=
  { unit_id := some "u1", recipients := some ["15551234567", "bad"],
    message := some "hi", media := none, document := none,
    debug_mode := JsDebug.undef }

/-- Witness for claim C5 on the scenario request. -/
theorem invalid_recipient_rejects_whole_request_witness :
    (∃ msg, (controllerSendMessage (fun _ => true) false c5Request emptyQueueState).1
        = ControllerResponse.badRequest msg)
    ∧ (controllerSendMessage (fun _ => true) false c5Request emptyQueueState).2
      = emptyQueueState :=
  invalid_recipient_rejects_whole_request (fun _ => true) false c5Request
    emptyQueueState ["15551234567", "bad"] "bad" rfl
    (List.Mem.tail _ (List.Mem.head _)) (by decide)

/-- Claim C6: a valid enqueue with k recipients creates exactly k jobs, one
per recipient in order, each with its own fresh job id; the returned
jobCount is k and the tenant queue gains exactly those k jobs. -/
theorem enqueue_one_job_per_recipient (st : QueueState) (t : String)
    (rs : List String) (m : RawMessage) (d : Bool) (pm : ProcessedMessage)
    (h : processMessageContent m = Except.ok pm) :
    (queueMessage st t rs m d).1
      = Except.ok
        { jobCount := rs.length,
          jobs := (mkJobs pm d st.nextJobId rs).map
            (fun j => ({ id := j.jobId, recipient := j.recipient } : JobRef)) }
    ∧ ((mkJobs pm d st.nextJobId rs).map
        (fun j => ({ id := j.jobId, recipient := j.recipient } : JobRef))).length
      = rs.length
    ∧ (((mkJobs pm d st.nextJobId rs).map
        (fun j => ({ id := j.jobId, recipient := j.recipient } : JobRef))).map
          JobRef.recipient) = rs
    ∧ ((((mkJobs pm d st.nextJobId rs).map
        (fun j => ({ id := j.jobId, recipient := j.recipient } : JobRef))).map
          JobRef.id)).Nodup
    ∧ ∃ q2, lookupQueue (queueMessage st t rs m d).2 t = some q2
        ∧ q2.waiting = (getMessageQueue st t).1.waiting ++ mkJobs pm d st.nextJobId rs := by
  have hn := getMessageQueue_nextJobId st t
  refine ⟨?_, ?_, ?_, ?_, ?_⟩
  · simp [queueMessage, h, hn, mkJobs_length]
  · simp [mkJobs_length]
  · rw [List.map_map]
    exact mkJobs_map_recipient pm d st.nextJobId rs
  · rw [List.map_map]
    have : ((fun (j : Job) => ({ id := j.jobId, recipient := j.recipient } : JobRef)).comp
        (fun j => j) : Job → JobRef) = fun j => { id := j.jobId, recipient := j.recipient } := rfl
    have hmap : (mkJobs pm d st.nextJobId rs).map
        (JobRef.id ∘ fun j => ({ id := j.jobId, recipient := j.recipient } : JobRef))
      = (mkJobs pm d st.nextJobId rs).map Job.jobId := rfl
    rw [hmap, mkJobs_map_jobId]
    exact List.nodup_range' _ _
  · refine ⟨{ (getMessageQueue st t).1 with
        waiting := (getMessageQueue st t).1.waiting ++ mkJobs pm d st.nextJobId rs }, ?_, rfl⟩
    simp [queueMessage, h, hn, lookupQueue, setQueue, alGet_alSet_self]

/-- Witness for claim C6: one recipient, plain text message, empty state. -/
theorem enqueue_one_job_per_recipient_witness :
    (queueMessage emptyQueueState "u1" ["15551234567"]
        { text := some "hi", media := none, document := none, documentFilename := none }
        false).1
      = Except.ok
        { jobCount := (["15551234567"] : List String).length,
          jobs := (mkJobs
              { hasText := true, hasMedia := false, hasDocument := false,
                content := { text := some "hi" } }
              false emptyQueueState.nextJobId ["15551234567"]).map
            (fun j => ({ id := j.jobId, recipient := j.recipient } : JobRef)) }
    ∧ ((mkJobs
          { hasText := true, hasMedia := false, hasDocument := false,
            content := { text := some "hi" } }
          false emptyQueueState.nextJobId ["15551234567"]).map
        (fun j => ({ id := j.jobId, recipient := j.recipient } : JobRef))).length
      = (["15551234567"] : List String).length
    ∧ (((mkJobs
          { hasText := true, hasMedia := false, hasDocument := false,
            content := { text := some "hi" } }
          false emptyQueueState.nextJobId ["15551234567"]).map
        (fun j => ({ id := j.jobId, recipient := j.recipient } : JobRef))).map
          JobRef.recipient) = ["15551234567"]
    ∧ ((((mkJobs
          { hasText := true, hasMedia := false, hasDocument := false,
            content := { text := some "hi" } }
          false emptyQueueState.nextJobId ["15551234567"]).map
        (fun j => ({ id := j.jobId, recipient := j.recipient } : JobRef))).map
          JobRef.id)).Nodup
    ∧ ∃ q2, lookupQueue (queueMessage emptyQueueState "u1" ["15551234567"]
          { text := some "hi", media := none, document := none, documentFilename := none }
          false).2 "u1" = some q2
        ∧ q2.waiting = (getMessageQueue emptyQueueState "u1").1.waiting
            ++ mkJobs
              { hasText := true, hasMedia := false, hasDocument := false,
                content := { text := some "hi" } }
              false emptyQueueState.nextJobId ["15551234567"] :=
  enqueue_one_job_per_recipient emptyQueueState "u1" ["15551234567"]
    { text := some "hi", media := none, document := none, documentFilename := none }
    false
    { hasText := true, hasMedia := false, hasDocument := false,
      content := { text := some "hi" } }
    rfl

/-- Claim C7: a delivery attempt for content carrying both a media and a
document reference performs exactly two sends, media first and document
second, and the success result carries the messageId of the document send,
the last operation performed. -/
theorem media_then_document_send (env : ClientEnv) (unitId recipient fn mu du : String)
    (mc : ProcessedMessage)
    (h1 : env.sessionReady = true) (h2 : env.clientExists = true)
    (h3 : validatePhoneNumber recipient = some fn)
    (h4 : env.isRegisteredUser (fn ++ "@c.us") = true)
    (h5 : mc.hasText = false) (h6 : mc.hasMedia = true) (h7 : mc.hasDocument = true)
    (h8 : mc.content.media = some mu) (h9 : mc.content.document = some du)
    (h10 : env.loadMedia mu = Except.ok ()) (h11 : env.loadDocument du = Except.ok ()) :
    (waSendMessage env unitId recipient mc).2
      = [WaOp.sendMedia (fn ++ "@c.us") (jsStrOr mc.content.caption ""),
         WaOp.sendDoc (fn ++ "@c.us") (jsStrOr mc.content.caption "")]
    ∧ (waSendMessage env unitId recipient mc).1
      = Except.ok
        { success := true, recipient := some fn,
          messageId := jsIdOrNull (some (env.sendResult
            (WaOp.sendDoc (fn ++ "@c.us") (jsStrOr mc.content.caption "")))) } := by
  constructor <;>
    simp [waSendMessage, loadMediaContent, loadDocumentContent,
      h1, h2, h3, h4, h5, h6, h7, h8, h9, h10, h11]

/-- A concrete client environment for the claim C7 witness: everything
ready, both loads succeed, the media send resolves to id MED and the
document send to id DOC. -/
def c7Env : ClientEnv :=
  { sessionReady := true, clientExists := true,
    isRegisteredUser := fun _ => true,
    loadMedia := fun _ => Except.ok (),
    loadDocument := fun _ => Except.ok (),
    sendResult := fun op =>
      match op with
      | WaOp.sendDoc _ _ => some "DOC"
      | WaOp.sendMedia _ _ => some "MED"
      | WaOp.sendText _ _ => some "TXT" }

/-- The both-attachments content for the claim C7 witness. -/
def c7Content : ProcessedMessage :=
  { hasText := false, hasMedia := true, hasDocument := true,
    content := { media := some "http://x/m.png", document := some "http://x/d.pdf",
                 caption := some "cap" } }

/-- Witness for claim C7: with both attachments, the trace is media then
document and the messageId is the one of the document send. -/
theorem media_then_document_send_witness :
    (waSendMessage c7Env "u1" "15551234567" c7Content).2
      = [WaOp.sendMedia ("15551234567" ++ "@c.us") (jsStrOr c7Content.content.caption ""),
         WaOp.sendDoc ("15551234567" ++ "@c.us") (jsStrOr c7Content.content.caption "")]
    ∧ (waSendMessage c7Env "u1" "15551234567" c7Content).1
      = Except.ok
        { success := true, recipient := some "15551234567",
          messageId := jsIdOrNull (some (c7Env.sendResult
            (WaOp.sendDoc ("15551234567" ++ "@c.us")
              (jsStrOr c7Content.content.caption "")))) } :=
  media_then_document_send c7Env "u1" "15551234567" "15551234567"
    "http://x/m.png" "http://x/d.pdf" c7Content
    rfl rfl rfl rfl rfl rfl rfl rfl rfl rfl rfl

/-- Claim C8: clearing a tenant queue removes exactly the waiting and
delayed jobs (reporting their number), leaves the active, completed and
failed jobs unchanged, and a second clear with no new jobs removes 0. -/
theorem clear_removes_waiting_delayed (st : QueueState) (t : String) :
    (clearQueue st t).1.removedCount
      = (getMessageQueue st t).1.waiting.length + (getMessageQueue st t).1.delayed.length
    ∧ (∃ q2, lookupQueue (clearQueue st t).2 t = some q2
        ∧ q2.waiting = [] ∧ q2.delayed = []
        ∧ q2.active = (getMessageQueue st t).1.active
        ∧ q2.completed = (getMessageQueue st t).1.completed
        ∧ q2.failed = (getMessageQueue st t).1.failed)
    ∧ (clearQueue (clearQueue st t).2 t).1.removedCount = 0 := by
  have hl : lookupQueue (clearQueue st t).2 t
      = some { (getMessageQueue st t).1 with waiting := [], delayed := [] } := by
    simp [clearQueue, setQueue, lookupQueue, alGet_alSet_self]
  refine ⟨rfl, ⟨{ (getMessageQueue st t).1 with waiting := [], delayed := [] },
    hl, rfl, rfl, rfl, rfl, rfl⟩, ?_⟩
  have hrm : (clearQueue (clearQueue st t).2 t).1.removedCount
      = (getMessageQueue (clearQueue st t).2 t).1.waiting.length
        + (getMessageQueue (clearQueue st t).2 t).1.delayed.length := rfl
  rw [hrm, getMessageQueue_found _ t _ hl]
  rfl

/-- Claim C9: resolving a tenant queue twice returns the same queue object
and the same registry state (get-or-create is idempotent), and none of the
registry operations — get-or-create, enqueue, stats, clear — ever removes a
registered tenant from the registry. -/
theorem registry_idempotent_no_eviction (st : QueueState) (t t2 : String)
    (rs : List String) (m : RawMessage) (d : Bool)
    (h : (lookupQueue st t2).isSome = true) :
    (getMessageQueue ((getMessageQueue st t).2) t).1 = (getMessageQueue st t).1
    ∧ (getMessageQueue ((getMessageQueue st t).2) t).2 = (getMessageQueue st t).2
    ∧ (lookupQueue (getMessageQueue st t).2 t2).isSome = true
    ∧ (lookupQueue (queueMessage st t rs m d).2 t2).isSome = true
    ∧ (lookupQueue (getQueueStats st t).2 t2).isSome = true
    ∧ (lookupQueue (clearQueue st t).2 t2).isSome = true := by
  have hself := lookupQueue_getMessageQueue_self st t
  have hfound := getMessageQueue_found _ t _ hself
  have h1 : (lookupQueue (getMessageQueue st t).2 t2).isSome = true :=
    getMessageQueue_isSome st t t2 h
  refine ⟨by rw [hfound], by rw [hfound], h1, ?_, h1, ?_⟩
  · cases hp : processMessageContent m with
    | error e => simpa [queueMessage, hp] using h1
    | ok pm =>
      simp only [queueMessage, hp, setQueue, lookupQueue]
      exact alGet_isSome_alSet _ t t2 _ h1
  · simp only [clearQueue, setQueue, lookupQueue]
    exact alGet_isSome_alSet _ t t2 _ h1

/-- Witness for claim C9: the registry already holding u1 keeps it across
every operation addressed at u2. -/
theorem registry_idempotent_no_eviction_witness :
    (getMessageQueue ((getMessageQueue (getMessageQueue emptyQueueState "u1").2 "u2").2) "u2").1
      = (getMessageQueue (getMessageQueue emptyQueueState "u1").2 "u2").1
    ∧ (getMessageQueue ((getMessageQueue (getMessageQueue emptyQueueState "u1").2 "u2").2) "u2").2
      = (getMessageQueue (getMessageQueue emptyQueueState "u1").2 "u2").2
    ∧ (lookupQueue (getMessageQueue (getMessageQueue emptyQueueState "u1").2 "u2").2 "u1").isSome = true
    ∧ (lookupQueue (queueMessage (getMessageQueue emptyQueueState "u1").2 "u2" ["15551234567"]
        { text := some "hi", media := none, document := none, documentFilename := none }
        false).2 "u1").isSome = true
    ∧ (lookupQueue (getQueueStats (getMessageQueue emptyQueueState "u1").2 "u2").2 "u1").isSome = true
    ∧ (lookupQueue (clearQueue (getMessageQueue emptyQueueState "u1").2 "u2").2 "u1").isSome = true :=
  registry_idempotent_no_eviction (getMessageQueue emptyQueueState "u1").2 "u2" "u1"
    ["15551234567"]
    { text := some "hi", media := none, document := none, documentFilename := none }
    false rfl

end WaMicro
